import Mathlib

/-!
# Formal model of `extractData.py`

A shallow embedding of the key-value extraction core of the repository:
the normalization pipelines (build-time vocabulary normalization and
runtime discovered-key normalization), the Python-dict-semantics lookup
construction, block text resolution, value location, the scan loop, and
the orchestrating `analyze_pdf_with_textract` pass.

Strings are modelled as `List Char`; Python string methods (`strip`,
`rstrip(':')`, `replace('\n', ' ')`, `lower`) are modelled directly on
character lists.  Python dicts are modelled as insertion-ordered
association lists with overwrite-in-place semantics.
-/

/-- Strings of the model: Python `str` as a list of characters. -/
abbrev Str := List Char

/-- Coerce a Lean string literal into the model's string type. -/
def str (s : String) : Str := s.data

/-- The whitespace characters removed by Python `str.strip()` (ASCII part). -/
def isPySpace (c : Char) : Bool :=
  c = ' ' || c = '\t' || c = '\n' || c = '\r' || c = '\x0b' || c = '\x0c'

/-- Python `s.strip()`: remove leading and trailing whitespace. -/
def pyStrip (s : Str) : Str := (s.dropWhile isPySpace).rdropWhile isPySpace

/-- Python `s.rstrip(':')`: remove every trailing colon character. -/
def rstripColon (s : Str) : Str := s.rdropWhile (fun c => c = ':')

/-- Python `s.replace('\n', ' ')`: replace each newline with one space. -/
def replaceNl (s : Str) : Str := s.map (fun c => if c = '\n' then ' ' else c)

/-- ASCII lower-casing of a single character (the fragment of Python
`str.lower()` exercised by the vocabulary and by OCR label text). -/
def lowerChar : Char → Char
  | 'A' => 'a' | 'B' => 'b' | 'C' => 'c' | 'D' => 'd' | 'E' => 'e'
  | 'F' => 'f' | 'G' => 'g' | 'H' => 'h' | 'I' => 'i' | 'J' => 'j'
  | 'K' => 'k' | 'L' => 'l' | 'M' => 'm' | 'N' => 'n' | 'O' => 'o'
  | 'P' => 'p' | 'Q' => 'q' | 'R' => 'r' | 'S' => 's' | 'T' => 't'
  | 'U' => 'u' | 'V' => 'v' | 'W' => 'w' | 'X' => 'x' | 'Y' => 'y'
  | 'Z' => 'z' | c => c

/-- Python `s.lower()`. -/
def pyLower (s : Str) : Str := s.map lowerChar

/-- Build-time vocabulary normalization, line 142 of `extractData.py`:
`key.replace('\n', ' ').strip().lower()`. -/
def normalize_config_key (s : Str) : Str := pyLower (pyStrip (replaceNl s))

/-- Runtime discovered-key normalization, line 153 of `extractData.py`:
`key_text.strip().rstrip(':').replace('\n', ' ').strip().lower()`. -/
def normalize_found_key (s : Str) : Str :=
  pyLower (pyStrip (replaceNl (rstripColon (pyStrip s))))

/-!
## Python dicts as insertion-ordered association lists

Keys are unique; assignment overwrites in place when the key is present
and appends otherwise, exactly as a CPython dict behaves.
-/

/-- Python `d[k]` / `d.get(k)`: look up a key in an association list. -/
def dictGet (m : List (Str × Str)) (k : Str) : Option Str :=
  match m with
  | [] => none
  | p :: rest => if p.1 = k then some p.2 else dictGet rest k

/-- Python `d[k] = v`: overwrite the binding in place when `k` is already
a key, append a new binding otherwise. -/
def pyDictInsert (m : List (Str × Str)) (k v : Str) : List (Str × Str) :=
  match m with
  | [] => [(k, v)]
  | p :: rest => if p.1 = k then (k, v) :: rest else p :: pyDictInsert rest k v

/-- Lines 141-144 of `extractData.py`: the dict comprehension building
`normalized_lookup` from the target-keys configuration, keyed by the
build-time normalized form of each raw variant. -/
def normalized_lookup (target_keys_config : List (Str × Str)) : List (Str × Str) :=
  target_keys_config.foldl
    (fun m kv => pyDictInsert m (normalize_config_key kv.1) kv.2) []

/-!
## Textract response data model

A `Block` carries exactly the attributes the program reads; attributes
the response may omit are modelled as `Option`s, except the entity-type
list, which the code reads with an empty-list default.
-/

/-- One entry of a block's `Relationships` list. -/
structure Relationship where
  rtype : Str
  ids : List Str
deriving DecidableEq

/-- A Textract content block, restricted to the attributes the program reads. -/
structure Block where
  id : Str
  blockType : Str
  text : Option Str
  entityTypes : List Str
  relationships : Option (List Relationship)
  selectionStatus : Option Str
deriving DecidableEq

/-- Line 136: lookup in the dict built from block id to block; being a
dict build, on duplicate ids the later block wins. -/
def blocksMapGet (blocks : List Block) (i : Str) : Option Block :=
  match blocks with
  | [] => none
  | b :: rest =>
    match blocksMapGet rest i with
    | some r => some r
    | none => if b.id = i then some b else none

/-- Contribution of one child id inside `get_text_from_block` (lines 65-74):
a missing id contributes nothing, a WORD child its text plus a space, a
SELECTION_ELEMENT child a bracketed status token plus a space. -/
def childText (blocks : List Block) (cid : Str) : Str :=
  match blocksMapGet blocks cid with
  | none => []
  | some cb =>
    if cb.blockType = str "WORD" then cb.text.getD [] ++ str " "
    else if cb.blockType = str "SELECTION_ELEMENT" then
      str "[" ++ cb.selectionStatus.getD (str "NOT_SELECTED") ++ str "] "
    else []

/-- Concatenated contributions of a CHILD relationship's id list. -/
def childConcat (blocks : List Block) (ids : List Str) : Str :=
  (ids.map (childText blocks)).flatten

/-- Contribution of one relationship inside `get_text_from_block`
(line 64): only CHILD relationships contribute. -/
def relText (blocks : List Block) (r : Relationship) : Str :=
  if r.rtype = str "CHILD" then childConcat blocks r.ids else []

/-- Lines 50-80: `get_text_from_block`, with the fallback to the block's
own `Text` attribute when no child text accumulated. -/
def get_text_from_block (b : Block) (blocks : List Block) : Str :=
  let text : Str :=
    match b.relationships with
    | none => []
    | some rels => (rels.map (relText blocks)).flatten
  pyStrip (if (pyStrip text).isEmpty && b.text.isSome then b.text.getD [] else text)

/-- Contribution of one value id inside `find_value_block` (lines 97-101):
a missing id contributes nothing, a present block its resolved text plus
a space. -/
def valueText (blocks : List Block) (vid : Str) : Str :=
  match blocksMapGet blocks vid with
  | none => []
  | some vb => get_text_from_block vb blocks ++ str " "

/-- Concatenated contributions of a VALUE relationship's id list. -/
def valueConcat (blocks : List Block) (ids : List Str) : Str :=
  (ids.map (valueText blocks)).flatten

/-- Contribution of one relationship inside `find_value_block` (line 96):
only VALUE relationships contribute. -/
def valueRelText (blocks : List Block) (r : Relationship) : Str :=
  if r.rtype = str "VALUE" then valueConcat blocks r.ids else []

/-- Lines 82-102: `find_value_block`. -/
def find_value_block (kb : Block) (blocks : List Block) : Str :=
  pyStrip
    (match kb.relationships with
     | none => []
     | some rels => (rels.map (valueRelText blocks)).flatten)

/-!
## The scan loop and the orchestrator
-/

/-- Lines 147-162: the body of the scan loop for one block.  A
KEY_VALUE_SET block with the KEY entity role has its text resolved and
normalized; on a vocabulary match, the value is recorded only when the
canonical key is not yet present (`if canonical_key not in
extracted_data_raw`). -/
def scanStep (lookup : List (Str × Str)) (blocks : List Block)
    (acc : List (Str × Str)) (b : Block) : List (Str × Str) :=
  if b.blockType = str "KEY_VALUE_SET" ∧ str "KEY" ∈ b.entityTypes then
    match dictGet lookup (normalize_found_key (get_text_from_block b blocks)) with
    | some canonical_key =>
      if (dictGet acc canonical_key).isSome then acc
      else pyDictInsert acc canonical_key (find_value_block b blocks)
    | none => acc
  else acc

/-- The `extracted_data_raw` dict after the full scan loop (lines 137-162). -/
def extracted_data_raw (target_keys_config : List (Str × Str))
    (blocks : List Block) : List (Str × Str) :=
  blocks.foldl (scanStep (normalized_lookup target_keys_config) blocks) []

/-- Lines 35-46: the fixed ordered list of canonical output fields. -/
def ORDERED_DISPLAY_KEYS : List Str :=
  [str "Meeting Date",
   str "Record Date for Notice",
   str "Record Date for Voting",
   str "Beneficial Ownership Determination Date",
   str "Securities entitled to Notice",
   str "Securities entitled to Vote",
   str "Meeting Type",
   str "Direct sending of proxy-related materials to NOBOs by issuer",
   str "Issuer to pay for sending proxy-related materials to OBOs by proximate intermediary",
   str "Notice and Access"]

/-- Lines 164-168: `final_results`, mapping every ordered display key to
its recorded value or the "Not Found" sentinel. -/
def final_results (raw : List (Str × Str)) : List (Str × Str) :=
  ORDERED_DISPLAY_KEYS.map (fun k => (k, (dictGet raw k).getD (str "Not Found")))

/-- The classified failures of the external Textract call, matching the
`except` clauses of lines 172-195. -/
inductive AwsError where
  | noCredentials : AwsError
  | incompleteCredentials : AwsError
  | clientError (code msg requestId : Str) : AwsError
  | boto3Error (msg : Str) : AwsError
  | unexpectedError (msg : Str) : AwsError
deriving DecidableEq

/-- Lines 105-195: `analyze_pdf_with_textract`.  The external call is
modelled by its outcome: a classified failure or the returned block
list.  Every failure returns `none`; an empty block list returns the
empty dict; otherwise the scan runs and the ordered result is built. -/
def analyze_pdf_with_textract (target_keys_config : List (Str × Str))
    (callResult : Except AwsError (List Block)) : Option (List (Str × Str)) :=
  match callResult with
  | Except.error _ => none
  | Except.ok blocks =>
    if blocks.isEmpty then some []
    else some (final_results (extracted_data_raw target_keys_config blocks))

/-- Lines 20-33: `TARGET_KEYS_MAP`, the reference vocabulary, in source
order (the two raw variants of the "Issuer to pay ..." key both map to
the same canonical field). -/
def TARGET_KEYS_MAP : List (Str × Str) :=
  [(str "Meeting Date", str "Meeting Date"),
   (str "Record Date for Notice", str "Record Date for Notice"),
   (str "Record Date for Voting", str "Record Date for Voting"),
   (str "Beneficial Ownership Determination Date",
    str "Beneficial Ownership Determination Date"),
   (str "Securities entitled to Notice", str "Securities entitled to Notice"),
   (str "Securities entitled to Vote", str "Securities entitled to Vote"),
   (str "Meeting Type", str "Meeting Type"),
   (str "Direct sending of proxy-related materials to NOBOs by issuer",
    str "Direct sending of proxy-related materials to NOBOs by issuer"),
   (str "Issuer to pay for sending proxy-related materials to OBOs\nby proximate intermediary",
    str "Issuer to pay for sending proxy-related materials to OBOs by proximate intermediary"),
   (str "Issuer to pay for sending proxy-related materials to OBOs by proximate intermediary",
    str "Issuer to pay for sending proxy-related materials to OBOs by proximate intermediary"),
   (str "Notice and Access", str "Notice and Access")]

/-!
## Concrete scenario data

Small concrete responses and vocabularies used to instantiate the
general theorems below.
-/

/-- A block with no interesting content. -/
def pageBlock : Block := ⟨str "p1", str "PAGE", none, [], none, none⟩

/-- A vocabulary naming a canonical field ("Quorum") that is not in
`ORDERED_DISPLAY_KEYS`. -/
def quorumConfig : List (Str × Str) := [(str "Quorum", str "Quorum")]

/-- A key block whose text resolves to "Quorum", with a value block. -/
def quorumKeyBlock : Block :=
  ⟨str "k1", str "KEY_VALUE_SET", none, [str "KEY"],
    some [⟨str "CHILD", [str "w1"]⟩, ⟨str "VALUE", [str "v1"]⟩], none⟩

/-- The WORD child carrying the key label "Quorum". -/
def quorumWordBlock : Block :=
  ⟨str "w1", str "WORD", some (str "Quorum"), [], none, none⟩

/-- The value block carrying "17". -/
def quorumValueBlock : Block :=
  ⟨str "v1", str "KEY_VALUE_SET", some (str "17"), [str "VALUE"], none, none⟩

/-- The response in which the extra field "Quorum" is matched and its
value recorded during the scan. -/
def quorumBlocks : List Block := [quorumKeyBlock, quorumWordBlock, quorumValueBlock]

/-- First key block for "Meeting Date" (value "June"). -/
def mdKeyBlock1 : Block :=
  ⟨str "k1", str "KEY_VALUE_SET", none, [str "KEY"],
    some [⟨str "CHILD", [str "w1"]⟩, ⟨str "VALUE", [str "v1"]⟩], none⟩

/-- Word child of the first key block. -/
def mdWordBlock1 : Block :=
  ⟨str "w1", str "WORD", some (str "Meeting Date:"), [], none, none⟩

/-- Value block of the first key block. -/
def mdValueBlock1 : Block :=
  ⟨str "v1", str "KEY_VALUE_SET", some (str "June"), [str "VALUE"], none, none⟩

/-- Later duplicate key block for "Meeting Date" (value "July"). -/
def mdKeyBlock2 : Block :=
  ⟨str "k2", str "KEY_VALUE_SET", none, [str "KEY"],
    some [⟨str "CHILD", [str "w2"]⟩, ⟨str "VALUE", [str "v2"]⟩], none⟩

/-- Word child of the duplicate key block. -/
def mdWordBlock2 : Block :=
  ⟨str "w2", str "WORD", some (str "MEETING DATE"), [], none, none⟩

/-- Value block of the duplicate key block. -/
def mdValueBlock2 : Block :=
  ⟨str "v2", str "KEY_VALUE_SET", some (str "July"), [str "VALUE"], none, none⟩

/-- A response with two distinct key blocks both resolving to the
"Meeting Date" canonical field. -/
def mdDupBlocks : List Block :=
  [mdKeyBlock1, mdKeyBlock2, mdWordBlock1, mdValueBlock1, mdWordBlock2, mdValueBlock2]

/-- A block with raw text but no relationships. -/
def fallbackBlock : Block :=
  ⟨str "f1", str "KEY_VALUE_SET", some (str "17"), [], none, none⟩

/-- A WORD block with no Text attribute. -/
def bareWordBlock : Block := ⟨str "bw", str "WORD", none, [], none, none⟩

/-- A SELECTION_ELEMENT block with no SelectionStatus attribute. -/
def bareSelBlock : Block := ⟨str "bs", str "SELECTION_ELEMENT", none, [], none, none⟩

/-!
## Association-list (Python dict) lemmas
-/

theorem dictGet_pyDictInsert_self (m : List (Str × Str)) (k v : Str) :
    dictGet (pyDictInsert m k v) k = some v := by
  induction m with
  | nil => simp [pyDictInsert, dictGet]
  | cons p rest ih =>
    by_cases h : p.1 = k
    · simp [pyDictInsert, dictGet, h]
    · simp [pyDictInsert, dictGet, h, ih]

theorem dictGet_pyDictInsert_ne (m : List (Str × Str)) (k k' v : Str)
    (h : k' ≠ k) : dictGet (pyDictInsert m k' v) k = dictGet m k := by
  induction m with
  | nil => simp [pyDictInsert, dictGet, h]
  | cons p rest ih =>
    by_cases hp : p.1 = k'
    · simp [pyDictInsert, dictGet, hp, h]
    · simp [pyDictInsert, dictGet, hp, ih]

/-- Later config entries whose variant does not normalize to `n` leave the
binding of `n` in the growing lookup untouched. -/
theorem normalized_lookup_foldl_preserve (post : List (Str × Str))
    (A : List (Str × Str)) (n w : Str) (hA : dictGet A n = some w)
    (hpost : ∀ kv ∈ post, normalize_config_key kv.1 ≠ n) :
    dictGet
      (post.foldl (fun m kv => pyDictInsert m (normalize_config_key kv.1) kv.2) A)
      n = some w := by
  induction post generalizing A with
  | nil => exact hA
  | cons kv rest ih =>
    simp only [List.foldl_cons]
    apply ih
    · rw [dictGet_pyDictInsert_ne _ _ _ _ (hpost kv (List.mem_cons_self kv rest))]
      exact hA
    · intro kv' h'
      exact hpost kv' (List.mem_cons_of_mem kv h')

/-!
## Claim C1
-/

/-- C1, counterexample: in the configuration `[("A", "f1"), ("a", "f2")]`
both raw variants normalize to `"a"` but map to different canonical
fields, and the built lookup does NOT retain the first-registered
variant's field `"f1"`. -/
theorem c1_counterexample :
    normalize_config_key (str "A") = normalize_config_key (str "a") ∧
    str "f1" ≠ str "f2" ∧
    dictGet (normalized_lookup [(str "A", str "f1"), (str "a", str "f2")])
        (normalize_config_key (str "A")) ≠ some (str "f1") := by decide

/-- C1, amended: the lookup-building dict comprehension makes the
LAST-registered variant win on collision: the binding of a normalized
form `n` is the canonical field of the last configuration entry whose
variant normalizes to `n`. -/
theorem c1_last_registered_wins (pre post : List (Str × Str)) (v c n : Str)
    (hn : normalize_config_key v = n)
    (hpost : ∀ kv ∈ post, normalize_config_key kv.1 ≠ n) :
    dictGet (normalized_lookup (pre ++ (v, c) :: post)) n = some c := by
  unfold normalized_lookup
  rw [List.foldl_append, List.foldl_cons]
  exact normalized_lookup_foldl_preserve post _ n c
    (by rw [hn, dictGet_pyDictInsert_self]) hpost

/-- C1, witness for the amended theorem at the counterexample's
configuration. -/
theorem c1_witness :
    dictGet (normalized_lookup [(str "A", str "f1"), (str "a", str "f2")])
        (str "a") = some (str "f2") :=
  c1_last_registered_wins [(str "A", str "f1")] [] (str "a") (str "f2")
    (str "a") (by decide) (by simp)

/-!
## Claim C3
-/

/-- C3, counterexample: the runtime pipeline is NOT just "strip a
trailing colon, then apply the build-time pipeline": on `"ab: "` the
code first trims whitespace (exposing the colon to the colon strip) and
yields `"ab"`, while colon-strip-then-build-pipeline yields `"ab:"`. -/
theorem c3_counterexample :
    normalize_found_key (str "ab: ") ≠
      normalize_config_key (rstripColon (str "ab: ")) := by decide

/-- C3, amended: the runtime normalization first trims whitespace, then
strips the trailing colons, then applies exactly the build-time pipeline
(newline-to-space, trim, lower-case). -/
theorem c3_runtime_is_strip_colon_then_build (s : Str) :
    normalize_found_key s = normalize_config_key (rstripColon (pyStrip s)) := rfl

/-!
## Claim C6
-/

/-- C6: case, trailing-colon and newline-versus-space variations of the
discovered key text all match the same canonical field, and the two
configured variants of the "Issuer to pay ..." key resolve to the
identical canonical field. -/
theorem c6_variant_insensitivity :
    dictGet (normalized_lookup TARGET_KEYS_MAP)
        (normalize_found_key (str "MEETING DATE")) = some (str "Meeting Date") ∧
    dictGet (normalized_lookup TARGET_KEYS_MAP)
        (normalize_found_key (str "meeting date")) = some (str "Meeting Date") ∧
    dictGet (normalized_lookup TARGET_KEYS_MAP)
        (normalize_found_key (str "Meeting Date:")) = some (str "Meeting Date") ∧
    normalize_config_key
        (str "Issuer to pay for sending proxy-related materials to OBOs\nby proximate intermediary") =
      normalize_config_key
        (str "Issuer to pay for sending proxy-related materials to OBOs by proximate intermediary") ∧
    dictGet (normalized_lookup TARGET_KEYS_MAP)
        (normalize_found_key
          (str "Issuer to pay for sending proxy-related materials to OBOs\nby proximate intermediary")) =
      some (str "Issuer to pay for sending proxy-related materials to OBOs by proximate intermediary") ∧
    dictGet (normalized_lookup TARGET_KEYS_MAP)
        (normalize_found_key
          (str "Issuer to pay for sending proxy-related materials to OBOs by proximate intermediary")) =
      some (str "Issuer to pay for sending proxy-related materials to OBOs by proximate intermediary") := by
  decide

/-!
## Claims C7 and C8
-/

/-- C7: a successful call with zero blocks returns the empty mapping,
which differs both from the failure signal and from the full
ordered-defaults map in which every field is "Not Found". -/
theorem c7_empty_blocks_distinct (target_keys_config : List (Str × Str)) :
    analyze_pdf_with_textract target_keys_config (Except.ok []) = some [] ∧
    some ([] : List (Str × Str)) ≠ (none : Option (List (Str × Str))) ∧
    ([] : List (Str × Str)) ≠
      ORDERED_DISPLAY_KEYS.map (fun k => (k, str "Not Found")) := by
  refine ⟨rfl, by simp, by decide⟩

/-- C8: every classified failure of the external call makes the pass
return the single failure signal `none`; no partial field map is ever
produced for a failed call. -/
theorem c8_failure_returns_none (target_keys_config : List (Str × Str))
    (e : AwsError) :
    analyze_pdf_with_textract target_keys_config (Except.error e) = none ∧
    ∀ m : List (Str × Str),
      analyze_pdf_with_textract target_keys_config (Except.error e) ≠ some m := by
  exact ⟨rfl, fun m h => Option.noConfusion h⟩

/-!
## Shape of `final_results`
-/

theorem final_results_keys (raw : List (Str × Str)) :
    (final_results raw).map Prod.fst = ORDERED_DISPLAY_KEYS := rfl

theorem final_results_values (raw : List (Str × Str)) :
    ∀ p ∈ final_results raw, p.2 = (dictGet raw p.1).getD (str "Not Found") := by
  intro p hp
  simp only [final_results, List.mem_map] at hp
  obtain ⟨k, _, rfl⟩ := hp
  rfl

theorem analyze_ok_of_ne_nil (target_keys_config : List (Str × Str))
    (blocks : List Block) (h : blocks ≠ []) :
    analyze_pdf_with_textract target_keys_config (Except.ok blocks) =
      some (final_results (extracted_data_raw target_keys_config blocks)) := by
  simp [analyze_pdf_with_textract, h]

/-!
## Claim C4
-/

/-- C4: for every successful pass on a non-empty block list, the result
contains exactly one entry per canonical field of
`ORDERED_DISPLAY_KEYS`, in that order, each value being either the
recorded (resolved) value or the sentinel "Not Found". -/
theorem c4_result_covers_ordered_keys (target_keys_config : List (Str × Str))
    (blocks : List Block) (h : blocks ≠ []) :
    ∃ r, analyze_pdf_with_textract target_keys_config (Except.ok blocks) = some r ∧
      r.map Prod.fst = ORDERED_DISPLAY_KEYS ∧
      (r.map Prod.fst).Nodup ∧
      ∀ p ∈ r, p.2 = str "Not Found" ∨
        dictGet (extracted_data_raw target_keys_config blocks) p.1 = some p.2 := by
  refine ⟨final_results (extracted_data_raw target_keys_config blocks),
    analyze_ok_of_ne_nil _ _ h, final_results_keys _, ?_, ?_⟩
  · rw [final_results_keys]
    decide
  · intro p hp
    have hv := final_results_values _ p hp
    cases hd : dictGet (extracted_data_raw target_keys_config blocks) p.1 with
    | none => left; rw [hv, hd]; rfl
    | some v => right; rw [hv, hd]; rfl

/-- C4, witness at a one-block response. -/
theorem c4_witness :
    ([pageBlock] ≠ ([] : List Block)) ∧
    ∃ r, analyze_pdf_with_textract TARGET_KEYS_MAP (Except.ok [pageBlock]) = some r ∧
      r.map Prod.fst = ORDERED_DISPLAY_KEYS ∧
      (r.map Prod.fst).Nodup ∧
      ∀ p ∈ r, p.2 = str "Not Found" ∨
        dictGet (extracted_data_raw TARGET_KEYS_MAP [pageBlock]) p.1 = some p.2 :=
  ⟨by simp, c4_result_covers_ordered_keys TARGET_KEYS_MAP [pageBlock] (by simp)⟩

/-!
## Claim C10
-/

theorem dictGet_keyed_map_not_mem (keys : List Str) (f : Str → Str) (c : Str)
    (h : c ∉ keys) : dictGet (keys.map (fun k => (k, f k))) c = none := by
  induction keys with
  | nil => rfl
  | cons k rest ih =>
    simp only [List.map_cons, dictGet]
    have hk : ¬ k = c := fun hk => h (hk ▸ List.mem_cons_self k rest)
    rw [if_neg hk]
    exact ih (fun hm => h (List.mem_cons_of_mem k hm))

/-- C10: the key set of every successful non-empty result is exactly the
fixed module-level ordered field list, whatever vocabulary was passed
in; any canonical field outside that list is absent from the result. -/
theorem c10_output_keys_fixed (target_keys_config : List (Str × Str))
    (blocks : List Block) (r : List (Str × Str)) (h : blocks ≠ [])
    (hr : analyze_pdf_with_textract target_keys_config (Except.ok blocks) = some r) :
    r.map Prod.fst = ORDERED_DISPLAY_KEYS ∧
    ∀ c, c ∉ ORDERED_DISPLAY_KEYS → dictGet r c = none := by
  have hr' : r = final_results (extracted_data_raw target_keys_config blocks) := by
    rw [analyze_ok_of_ne_nil _ _ h] at hr
    exact (Option.some_inj.mp hr).symm
  subst hr'
  exact ⟨final_results_keys _, fun c hc => dictGet_keyed_map_not_mem _ _ _ hc⟩

/-- C10, witness: "Quorum" is matched and recorded in the raw scan dict,
yet it is silently dropped from the final result. -/
theorem c10_witness :
    dictGet (extracted_data_raw quorumConfig quorumBlocks) (str "Quorum") =
      some (str "17") ∧
    dictGet (final_results (extracted_data_raw quorumConfig quorumBlocks))
      (str "Quorum") = none :=
  ⟨by decide,
    (c10_output_keys_fixed quorumConfig quorumBlocks _ (by decide) rfl).2
      (str "Quorum") (by decide)⟩

/-!
## Claim C5
-/

/-- The scan loop never overwrites an already-recorded canonical field. -/
theorem dictGet_scanStep_preserve (lookup : List (Str × Str)) (blocks : List Block)
    (acc : List (Str × Str)) (b : Block) (c w : Str)
    (h : dictGet acc c = some w) :
    dictGet (scanStep lookup blocks acc b) c = some w := by
  unfold scanStep
  split
  · split
    · next canonical_key heq =>
        split
        · exact h
        · next hnot =>
            by_cases hc : canonical_key = c
            · subst hc
              rw [h] at hnot
              simp at hnot
            · rw [dictGet_pyDictInsert_ne _ _ _ _ hc]
              exact h
    · exact h
  · exact h

theorem dictGet_scanFold_preserve (lookup : List (Str × Str)) (blocks : List Block)
    (post : List Block) (acc : List (Str × Str)) (c w : Str)
    (h : dictGet acc c = some w) :
    dictGet (post.foldl (scanStep lookup blocks) acc) c = some w := by
  induction post generalizing acc with
  | nil => exact h
  | cons b rest ih =>
    exact ih _ (dictGet_scanStep_preserve lookup blocks acc b c w h)

/-- Processing a matching key block records its resolved value when the
canonical field is still unrecorded. -/
theorem scanStep_records (lookup : List (Str × Str)) (blocks : List Block)
    (acc : List (Str × Str)) (b : Block) (c : Str)
    (hkey : b.blockType = str "KEY_VALUE_SET" ∧ str "KEY" ∈ b.entityTypes)
    (hmatch : dictGet lookup (normalize_found_key (get_text_from_block b blocks)) =
      some c)
    (habs : dictGet acc c = none) :
    dictGet (scanStep lookup blocks acc b) c = some (find_value_block b blocks) := by
  unfold scanStep
  rw [if_pos hkey, hmatch]
  simp [habs, dictGet_pyDictInsert_self]

/-- C5: if a key block `b` is the first block in scan order to match the
canonical field `c` (no earlier block has recorded `c`), the value
finally recorded for `c` is the one resolved from `b`; later duplicates
never overwrite it. -/
theorem c5_first_match_wins (target_keys_config : List (Str × Str))
    (blocks pre post : List Block) (b : Block) (c : Str)
    (hsplit : blocks = pre ++ b :: post)
    (hkey : b.blockType = str "KEY_VALUE_SET" ∧ str "KEY" ∈ b.entityTypes)
    (hmatch : dictGet (normalized_lookup target_keys_config)
        (normalize_found_key (get_text_from_block b blocks)) = some c)
    (hfirst : dictGet
        (pre.foldl (scanStep (normalized_lookup target_keys_config) blocks) [])
        c = none) :
    dictGet (extracted_data_raw target_keys_config blocks) c =
      some (find_value_block b blocks) := by
  subst hsplit
  unfold extracted_data_raw
  rw [List.foldl_append, List.foldl_cons]
  exact dictGet_scanFold_preserve _ _ post _ c _
    (scanStep_records _ _ _ b c hkey hmatch hfirst)

/-!
## Claim C9
-/

theorem childText_missing (blocks : List Block) (cid : Str)
    (h : blocksMapGet blocks cid = none) : childText blocks cid = [] := by
  unfold childText
  rw [h]

theorem valueText_missing (blocks : List Block) (vid : Str)
    (h : blocksMapGet blocks vid = none) : valueText blocks vid = [] := by
  unfold valueText
  rw [h]

/-- C9: response gaps are tolerated as empty local contributions: an id
referenced by a CHILD or VALUE relationship but absent from the block
index is silently skipped, a block with no Relationships attribute still
resolves (to its own raw text, or nothing for value location), and a
missing optional Text / SelectionStatus attribute degrades to the empty
text (resp. the NOT_SELECTED token); none of this escalates to a
pass-level error. -/
theorem c9_gaps_tolerated :
    (∀ (blocks : List Block) (cid : Str) (pre post : List Str),
      blocksMapGet blocks cid = none →
      childConcat blocks (pre ++ cid :: post) = childConcat blocks (pre ++ post)) ∧
    (∀ (blocks : List Block) (vid : Str) (pre post : List Str),
      blocksMapGet blocks vid = none →
      valueConcat blocks (pre ++ vid :: post) = valueConcat blocks (pre ++ post)) ∧
    (∀ (b : Block) (blocks : List Block), b.relationships = none →
      get_text_from_block b blocks = pyStrip (b.text.getD []) ∧
      find_value_block b blocks = []) ∧
    (∀ (blocks : List Block) (cid : Str) (cb : Block),
      blocksMapGet blocks cid = some cb → cb.blockType = str "WORD" →
      cb.text = none → childText blocks cid = str " ") ∧
    (∀ (blocks : List Block) (cid : Str) (cb : Block),
      blocksMapGet blocks cid = some cb → cb.blockType = str "SELECTION_ELEMENT" →
      cb.selectionStatus = none → childText blocks cid = str "[NOT_SELECTED] ") := by
  refine ⟨?_, ?_, ?_, ?_, ?_⟩
  · intro blocks cid pre post h
    simp [childConcat, childText_missing blocks cid h]
  · intro blocks vid pre post h
    simp [valueConcat, valueText_missing blocks vid h]
  · intro b blocks h
    constructor
    · unfold get_text_from_block
      rw [h]
      cases ht : b.text <;> rfl
    · unfold find_value_block
      rw [h]
      rfl
  · intro blocks cid cb h hbt htext
    simp only [childText, h]
    rw [hbt, htext, if_pos rfl]
    rfl
  · intro blocks cid cb h hbt hstat
    simp only [childText, h]
    rw [hbt, hstat, if_neg (by decide), if_pos rfl]
    rfl

/-- C9, witness: the tolerance facts instantiated at concrete gaps. -/
theorem c9_witness :
    (childConcat [] ([] ++ str "x" :: []) = childConcat [] ([] ++ []) ∧
      valueConcat [] ([] ++ str "x" :: []) = valueConcat [] ([] ++ [])) ∧
    (get_text_from_block fallbackBlock [] = pyStrip (fallbackBlock.text.getD []) ∧
      find_value_block fallbackBlock [] = []) ∧
    childText [bareWordBlock] (str "bw") = str " " ∧
    childText [bareSelBlock] (str "bs") = str "[NOT_SELECTED] " :=
  ⟨⟨c9_gaps_tolerated.1 [] (str "x") [] [] rfl,
    c9_gaps_tolerated.2.1 [] (str "x") [] [] rfl⟩,
   c9_gaps_tolerated.2.2.1 fallbackBlock [] rfl,
   c9_gaps_tolerated.2.2.2.1 [bareWordBlock] (str "bw") bareWordBlock (by decide)
     rfl rfl,
   c9_gaps_tolerated.2.2.2.2 [bareSelBlock] (str "bs") bareSelBlock (by decide)
     rfl rfl⟩

/-!
## Claim C2: character-level facts
-/

theorem lowerChar_cases (c : Char) :
    lowerChar c = c ∨ lowerChar c ∈ str "abcdefghijklmnopqrstuvwxyz" := by
  unfold lowerChar
  split <;> first | (left; rfl) | (right; decide)

theorem lowerChar_idem (c : Char) : lowerChar (lowerChar c) = lowerChar c := by
  rcases lowerChar_cases c with h | h
  · rw [h]
    exact h
  · have hfix : ∀ d ∈ str "abcdefghijklmnopqrstuvwxyz", lowerChar d = d := by decide
    exact hfix _ h

theorem isPySpace_lowerChar (c : Char) : isPySpace (lowerChar c) = isPySpace c := by
  unfold lowerChar
  split <;> rfl

theorem lowerChar_ne_newline (c : Char) (h : c ≠ '\n') : lowerChar c ≠ '\n' := by
  unfold lowerChar
  split <;> first | exact h | decide

/-!
## Claim C2: list-level facts
-/

theorem dropWhile_pyLower (s : Str) :
    (pyLower s).dropWhile isPySpace = pyLower (s.dropWhile isPySpace) := by
  have hp : (isPySpace ∘ lowerChar) = isPySpace := funext isPySpace_lowerChar
  unfold pyLower
  rw [List.dropWhile_map, hp]

theorem rdropWhile_pyLower (s : Str) :
    (pyLower s).rdropWhile isPySpace = pyLower (s.rdropWhile isPySpace) := by
  have hp : (isPySpace ∘ lowerChar) = isPySpace := funext isPySpace_lowerChar
  unfold pyLower List.rdropWhile
  rw [← List.map_reverse, List.dropWhile_map, hp, List.map_reverse]

theorem pyStrip_pyLower (s : Str) : pyStrip (pyLower s) = pyLower (pyStrip s) := by
  unfold pyStrip
  rw [dropWhile_pyLower, rdropWhile_pyLower]

theorem pyLower_idem (s : Str) : pyLower (pyLower s) = pyLower s := by
  have h : lowerChar ∘ lowerChar = lowerChar := funext lowerChar_idem
  unfold pyLower
  rw [List.map_map, h]

theorem pyStrip_idem (s : Str) : pyStrip (pyStrip s) = pyStrip s := by
  unfold pyStrip
  have h1 : ((s.dropWhile isPySpace).rdropWhile isPySpace).dropWhile isPySpace
      = (s.dropWhile isPySpace).rdropWhile isPySpace := by
    rcases hv : (s.dropWhile isPySpace).rdropWhile isPySpace with _ | ⟨a, t⟩
    · rfl
    · have hpre := List.rdropWhile_prefix isPySpace (s.dropWhile isPySpace)
      rw [hv] at hpre
      obtain ⟨r, hr⟩ := hpre
      have hlen : 0 < (s.dropWhile isPySpace).length := by
        rw [← hr]
        simp
      have hnot := List.dropWhile_get_zero_not isPySpace s hlen
      have ha : (s.dropWhile isPySpace).get ⟨0, hlen⟩ = a := by
        simp [← hr]
      rw [ha] at hnot
      rw [List.dropWhile_cons_of_neg hnot]
  rw [h1, List.rdropWhile_idempotent]

theorem mem_of_rdropWhile {p : Char → Bool} {l : Str} {c : Char}
    (h : c ∈ l.rdropWhile p) : c ∈ l := by
  unfold List.rdropWhile at h
  rw [List.mem_reverse] at h
  have h2 := (List.dropWhile_suffix p).sublist.subset h
  rwa [List.mem_reverse] at h2

theorem mem_of_pyStrip {s : Str} {c : Char} (h : c ∈ pyStrip s) : c ∈ s := by
  unfold pyStrip at h
  exact (List.dropWhile_suffix isPySpace).sublist.subset (mem_of_rdropWhile h)

theorem replaceNl_no_newline (s : Str) : ∀ c ∈ replaceNl s, c ≠ '\n' := by
  intro c hc
  unfold replaceNl at hc
  obtain ⟨a, _, rfl⟩ := List.mem_map.mp hc
  by_cases h : a = '\n'
  · rw [if_pos h]
    decide
  · rw [if_neg h]
    exact h

theorem replaceNl_eq_self : ∀ s : Str, (∀ c ∈ s, c ≠ '\n') → replaceNl s = s := by
  intro s
  induction s with
  | nil => intro _; rfl
  | cons a t ih =>
    intro h
    unfold replaceNl
    rw [List.map_cons, if_neg (h a (List.mem_cons_self a t))]
    have ht := ih (fun c hc => h c (List.mem_cons_of_mem a hc))
    unfold replaceNl at ht
    rw [ht]

theorem rstripColon_eq_self (t : Str) (h : t.getLast? ≠ some ':') :
    rstripColon t = t := by
  unfold rstripColon
  rw [List.rdropWhile_eq_self_iff]
  intro hne
  simp only [decide_eq_true_eq]
  intro hcolon
  exact h (by rw [List.getLast?_eq_getLast_of_ne_nil hne, hcolon])

/-!
## Claim C2
-/

/-- C2, counterexample: the runtime normalization is not idempotent; on
the input `": :"` it yields `":"`, and normalizing `":"` again yields
the empty string. -/
theorem c2_counterexample :
    normalize_found_key (normalize_found_key (str ": :")) ≠
      normalize_found_key (str ": :") := by decide

/-- C2, amended: the runtime normalization is idempotent on every string
whose normalized form does not end with a colon character (the trailing
whitespace strip can expose a new trailing colon, which only a second
pass would remove). -/
theorem c2_idempotent_unless_trailing_colon (s : Str)
    (h : (normalize_found_key s).getLast? ≠ some ':') :
    normalize_found_key (normalize_found_key s) = normalize_found_key s := by
  have hstrip : pyStrip (normalize_found_key s) = normalize_found_key s := by
    unfold normalize_found_key
    rw [pyStrip_pyLower, pyStrip_idem]
  have hnl : ∀ c ∈ normalize_found_key s, c ≠ '\n' := by
    unfold normalize_found_key pyLower
    intro c hc
    obtain ⟨a, ha, rfl⟩ := List.mem_map.mp hc
    exact lowerChar_ne_newline a (replaceNl_no_newline _ a (mem_of_pyStrip ha))
  have hlow : pyLower (normalize_found_key s) = normalize_found_key s := by
    unfold normalize_found_key
    exact pyLower_idem _
  show pyLower (pyStrip (replaceNl (rstripColon (pyStrip (normalize_found_key s))))) =
    normalize_found_key s
  rw [hstrip, rstripColon_eq_self _ h, replaceNl_eq_self _ hnl, hstrip, hlow]

/-- C2, witness: idempotence at the realistic OCR label "Meeting Date:". -/
theorem c2_witness :
    ((normalize_found_key (str "Meeting Date:")).getLast? ≠ some ':') ∧
    normalize_found_key (normalize_found_key (str "Meeting Date:")) =
      normalize_found_key (str "Meeting Date:") :=
  ⟨by decide, c2_idempotent_unless_trailing_colon (str "Meeting Date:") (by decide)⟩

/-- C5, witness: both key blocks match "Meeting Date" with different
values, and the recorded value is that of the first block in scan order. -/
theorem c5_witness :
    find_value_block mdKeyBlock1 mdDupBlocks = str "June" ∧
    find_value_block mdKeyBlock2 mdDupBlocks = str "July" ∧
    dictGet (normalized_lookup TARGET_KEYS_MAP)
        (normalize_found_key (get_text_from_block mdKeyBlock2 mdDupBlocks)) =
      some (str "Meeting Date") ∧
    dictGet (extracted_data_raw TARGET_KEYS_MAP mdDupBlocks) (str "Meeting Date") =
      some (find_value_block mdKeyBlock1 mdDupBlocks) :=
  ⟨by decide, by decide, by decide,
    c5_first_match_wins TARGET_KEYS_MAP mdDupBlocks []
      [mdKeyBlock2, mdWordBlock1, mdValueBlock1, mdWordBlock2, mdValueBlock2]
      mdKeyBlock1 (str "Meeting Date") rfl ⟨rfl, by decide⟩ (by decide) rfl⟩
